import Mathlib

/-!
# Verification of the CDP connection/session multiplexer (`src/chromium/crConnection.ts`)

Shallow embedding of `CRConnection` / `CRSession`. The JavaScript code is
single-threaded and event-driven; we model it as pure state-transition
functions. Side effects on the collaborators (transport sends, promise
settlements, deferred event emissions, assertion failures) are returned as an
explicit list of `Effect`s, in the order the code performs (or schedules) them.

JSON payloads (`params`, `result`) are opaque to this module (they are only
passed through), so they are modelled by an abstract value type. JavaScript
`Map`s are modelled by insertion-ordered association lists with JS `Map`
semantics (`set` overwrites in place, `delete` removes, `values` iterates in
insertion order).
-/

set_option autoImplicit false

/-- Opaque JSON payload values: the code under verification never inspects
`params` / `result` / `error.data` contents, it only passes them through
(`error.data` is string-concatenated, so we render it as a string). -/
abbrev JsonValue := String

/-- A JavaScript `Error` value: a message plus the call-site diagnostic
context captured at construction (the stack). -/
structure JsError where
  message : String
  stack : String
deriving DecidableEq, Repr

/-- Modelled from the spec: the diagnostic-enrichment collaborator
(`rewriteErrorMessage` from `src/debug/stackTrace.ts`, which is not under
`src/`): given a call-site-captured error and a replacement message, it
returns the error with its message replaced but its original call-site
context (stack) preserved. -/
def rewriteErrorMessage (error : JsError) (newMessage : String) : JsError :=
  { error with message := newMessage }

/-- The `error` field of a response envelope: `{message, data?}`; `data` is
optional (`'data' in protocolError` tests presence). -/
structure ErrorPayload where
  message : String
  data : Option String
deriving DecidableEq, Repr

/-- Outbound request envelope built by `CRConnection._rawSend`:
`{id, method, params}`, plus `sessionId` only when the session id is
truthy (non-empty). -/
structure ProtocolRequest where
  id : Int
  method : String
  params : Option JsonValue
  sessionId : Option String
deriving DecidableEq, Repr

/-- Inbound envelope (`ProtocolResponse`): every field optional. The nested
accesses the code performs on `params` for target lifecycle notifications
(`params.sessionId`, `params.targetInfo.type`) are flattened into
`paramsSessionId` / `paramsTargetType`; `params` itself stays opaque for
event emission. -/
structure ProtocolResponse where
  id : Option Int := none
  method : Option String := none
  sessionId : Option String := none
  paramsSessionId : Option String := none
  paramsTargetType : Option String := none
  params : Option JsonValue := none
  result : Option JsonValue := none
  error : Option ErrorPayload := none
deriving DecidableEq, Repr

/-- An entry of the per-session pending-call table (`_callbacks`): the
call-site diagnostic error and the method name (the resolve/reject
continuations are modelled by the settlement `Effect`s). -/
structure Callback where
  error : JsError
  method : String
deriving DecidableEq, Repr

/-- Observable side effects of one operation, in program order. Promise
settlements stand for invoking the stored resolve/reject continuations;
`emit*` effects are the deferred (`Promise.resolve().then`) emissions;
`assertionFailed` is a thrown `assert` (from `src/helper.ts`, modelled from
the spec: fail loudly on violated invariants). -/
inductive Effect where
  | sent (request : ProtocolRequest)
  | transportClose
  | detachTransportHooks
  | rejectCall (sessionId : String) (id : Int) (error : JsError)
  | resolveCall (sessionId : String) (id : Int) (result : Option JsonValue)
  | emitEvent (sessionId : String) (method : Option String) (params : Option JsonValue)
  | emitSessionDisconnected (sessionId : String)
  | emitDisconnected
  | assertionFailed (sessionId : String)
  | sendRejected (sessionId : String) (error : JsError)
deriving DecidableEq, Repr

/-- JS `Map.prototype.get` on an insertion-ordered association list. -/
def mapGet {α β : Type} [DecidableEq α] : List (α × β) → α → Option β
  | [], _ => none
  | p :: rest, k => if p.1 = k then some p.2 else mapGet rest k

/-- JS `Map.prototype.set`: overwrite in place if the key exists, else append. -/
def mapSet {α β : Type} [DecidableEq α] : List (α × β) → α → β → List (α × β)
  | [], k, v => [(k, v)]
  | p :: rest, k, v => if p.1 = k then (k, v) :: rest else p :: mapSet rest k v

/-- JS `Map.prototype.delete`: remove the entry with the given key. -/
def mapDelete {α β : Type} [DecidableEq α] : List (α × β) → α → List (α × β)
  | [], _ => []
  | p :: rest, k => if p.1 = k then rest else p :: mapDelete rest k

/-- `kBrowserCloseMessageId`: the special id used for the fire-and-forget
`Browser.close` command, always ignored on receipt. -/
def kBrowserCloseMessageId : Int := -9999

/-- State of a `CRSession`: the back-reference to the connection is modelled
by a presence flag (`true` = reference present, `false` = `null`). -/
structure CRSession where
  connection : Bool
  callbacks : List (Int × Callback)
  targetType : String
  sessionId : String
  rootSessionId : String
  crashed : Bool
deriving DecidableEq, Repr

/-- `new CRSession(connection, rootSessionId, targetType, sessionId)`. -/
def CRSession.mkNew (rootSessionId targetType sessionId : String) : CRSession :=
  { connection := true, callbacks := [], targetType, sessionId, rootSessionId,
    crashed := false }

/-- State of a `CRConnection`: the request-id counter, the session registry
and the closed flag (the transport and logger are external collaborators). -/
structure CRConnection where
  lastId : Int
  sessions : List (String × CRSession)
  closed : Bool
deriving DecidableEq, Repr

/-- The `CRConnection` constructor: counter at 0, open, with the root session
(session id `""`, root session id `""`, target type `browser`) registered. -/
def CRConnection.mkNew : CRConnection :=
  { lastId := 0,
    sessions := [("", CRSession.mkNew "" "browser" "")],
    closed := false }

/-- `CRConnection.session(sessionId)` (the `|| null` coercion is the `Option`). -/
def CRConnection.session (c : CRConnection) (sessionId : String) : Option CRSession :=
  mapGet c.sessions sessionId

/-- `CRConnection._rawSend(sessionId, method, params)`: pre-increment the
shared counter, build the request (the `sessionId` field is set only when the
session id string is truthy, i.e. non-empty), hand it to the transport, and
return the id. Result: (new state, returned id, transport-sent request). -/
def CRConnection.rawSend (c : CRConnection) (sessionId method : String)
    (params : Option JsonValue) : CRConnection × Int × ProtocolRequest :=
  let id := c.lastId + 1
  let message : ProtocolRequest :=
    { id, method, params,
      sessionId := if sessionId ≠ "" then some sessionId else none }
  ({ c with lastId := id }, id, message)

/-- Replace a connection's session registry (notation helper for stating
registry updates). -/
def CRConnection.withSessions (c : CRConnection) (L : List (String × CRSession)) :
    CRConnection :=
  { c with sessions := L }

/-- `CRSession._markAsCrashed()`. -/
def CRSession.markAsCrashed (s : CRSession) : CRSession :=
  { s with crashed := true }

/-- `CRSession._onClosed()`: reject every pending call with the enriched
"Target closed" protocol error (preserving its call-site stack), clear the
table, null the connection reference, then schedule the Disconnected emit. -/
def CRSession.onClosed (s : CRSession) : CRSession × List Effect :=
  ({ s with callbacks := [], connection := false },
    s.callbacks.map (fun p =>
      Effect.rejectCall s.sessionId p.1
        (rewriteErrorMessage p.2.error
          ("Protocol error (" ++ p.2.method ++ "): Target closed.")))
    ++ [Effect.emitSessionDisconnected s.sessionId])

/-- `createProtocolError(error, method, protocolError)`: format the peer
error message, append `data` when the field is present, and rewrite the
call-site error with that message. -/
def createProtocolError (error : JsError) (method : String)
    (protocolError : ErrorPayload) : JsError :=
  let message := "Protocol error (" ++ method ++ "): " ++ protocolError.message
  let message :=
    match protocolError.data with
    | some d => message ++ " " ++ d
    | none => message
  rewriteErrorMessage error message

/-- `CRSession._onMessage(object)`: `object.id && this._callbacks.has(object.id)`
uses JS truthiness, so id `0` (like an absent id) takes the event branch.
A truthy id with no matching pending call makes `assert(!object.id)` throw
(the deferred emit is then never scheduled). -/
def CRSession.onMessage (s : CRSession) (object : ProtocolResponse) :
    CRSession × List Effect :=
  match object.id with
  | some n =>
    if n ≠ 0 then
      match mapGet s.callbacks n with
      | some callback =>
        ({ s with callbacks := mapDelete s.callbacks n },
          [match object.error with
           | some pe => Effect.rejectCall s.sessionId n
               (createProtocolError callback.error callback.method pe)
           | none => Effect.resolveCall s.sessionId n object.result])
      | none => (s, [Effect.assertionFailed s.sessionId])
    else (s, [Effect.emitEvent s.sessionId object.method object.params])
  | none => (s, [Effect.emitEvent s.sessionId object.method object.params])

/-- The pending-call record `send` registers: `{error: new Error(), method}`
(a fresh error with empty message capturing the call-site stack plus the
method name). -/
def pendingCallbackFor (stack method : String) : Callback :=
  { error := { message := "", stack }, method }

/-- `CRSession.send(method, params)`: fail fast when crashed, fail fast when
the connection reference is null, otherwise allocate an id via the shared
connection counter, send on the transport, and register the pending call.
`stack` is the call-site diagnostic context the JS runtime captures in
`new Error()`. Result on success: (new session, new connection, id, request). -/
def CRSession.send (s : CRSession) (c : CRConnection) (method : String)
    (params : Option JsonValue) (stack : String) :
    Except JsError (CRSession × CRConnection × Int × ProtocolRequest) :=
  if s.crashed then
    Except.error { message := "Target crashed", stack }
  else if !s.connection then
    Except.error
      { message := "Protocol error (" ++ method
          ++ "): Session closed. Most likely the " ++ s.targetType
          ++ " has been closed.",
        stack }
  else
    let r := c.rawSend s.sessionId method params
    let callbacks1 := mapSet s.callbacks r.2.1 (pendingCallbackFor stack method)
    Except.ok ({ s with callbacks := callbacks1 }, r.1, r.2.1, r.2.2)

/-- The target-lifecycle block of `CRConnection._onMessage`: on an attach
notification register the new session (session id = the notification's
`params.sessionId`, root session id = the frame's own `sessionId || ''`,
target type = `params.targetInfo.type`); on a detach notification close and
deregister the named session; any other method leaves the registry alone. -/
def CRConnection.handleLifecycle (c : CRConnection) (message : ProtocolResponse) :
    CRConnection × List Effect :=
  if message.method = some "Target.attachedToTarget" then
    match message.paramsSessionId with
    | some sid =>
      let session := CRSession.mkNew (message.sessionId.getD "")
        (message.paramsTargetType.getD "") sid
      ({ c with sessions := mapSet c.sessions sid session }, [])
    | none => (c, [])
  else if message.method = some "Target.detachedFromTarget" then
    match message.paramsSessionId with
    | some sid =>
      match mapGet c.sessions sid with
      | some session =>
        ({ c with sessions := mapDelete c.sessions sid }, session.onClosed.2)
      | none => (c, [])
    | none => (c, [])
  else (c, [])

/-- `CRConnection._onMessage(message)`: discard the browser-close sentinel;
run the attach/detach lifecycle block; then forward the frame to the session
owning `message.sessionId || ''` when it is (still) registered. -/
def CRConnection.onMessage (c : CRConnection) (message : ProtocolResponse) :
    CRConnection × List Effect :=
  if message.id = some kBrowserCloseMessageId then (c, [])
  else
    let lifecycle := c.handleLifecycle message
    let c1 := lifecycle.1
    match mapGet c1.sessions (message.sessionId.getD "") with
    | some session =>
      let sessions1 :=
        mapSet c1.sessions (message.sessionId.getD "") (session.onMessage message).1
      ({ c1 with sessions := sessions1 }, lifecycle.2 ++ (session.onMessage message).2)
    | none => (c1, lifecycle.2)

/-- `CRConnection._onClose()` (the transport-close callback): mark closed,
detach the transport hooks, close every registered session in insertion
order, clear the registry, and schedule the Disconnected emit. -/
def CRConnection.onClose (c : CRConnection) : CRConnection × List Effect :=
  ({ c with closed := true, sessions := [] },
    Effect.detachTransportHooks
      :: ((c.sessions.map (fun p => p.2.onClosed.2)).flatten
        ++ [Effect.emitDisconnected]))

/-- `CRConnection.close()`: request transport closure unless `_closed` is
already set (only `_onClose` ever sets it); the connection state itself is
not modified. -/
def CRConnection.close (c : CRConnection) : CRConnection × List Effect :=
  if !c.closed then (c, [Effect.transportClose]) else (c, [])

/-- Operations a run of the program can perform on one connection: a
session-level `send` (addressed by registered session id), a bare
`_rawSend`, delivery of an inbound frame, the transport-close callback, and
a local `close()` call. -/
inductive Op where
  | send (sessionId method : String) (params : Option JsonValue) (stack : String)
  | rawSend (sessionId method : String) (params : Option JsonValue)
  | recv (message : ProtocolResponse)
  | transportClosed
  | close
deriving DecidableEq, Repr

/-- One step of the system: dispatch an operation to the code it exercises.
A `send` whose session throws leaves the state untouched and performs no
transport interaction (the throw is the `sendRejected` effect). -/
def CRConnection.step (c : CRConnection) : Op → CRConnection × List Effect
  | .send sid method params stack =>
    match mapGet c.sessions sid with
    | some s =>
      match s.send c method params stack with
      | .ok r => ({ r.2.1 with sessions := mapSet r.2.1.sessions sid r.1 },
          [Effect.sent r.2.2.2])
      | .error e => (c, [Effect.sendRejected sid e])
    | none => (c, [])
  | .rawSend sid method params =>
    let r := c.rawSend sid method params
    (r.1, [Effect.sent r.2.2])
  | .recv m => c.onMessage m
  | .transportClosed => c.onClose
  | .close => c.close

/-- Run a list of operations, keeping only the final state. -/
def CRConnection.runOps (c : CRConnection) : List Op → CRConnection
  | [] => c
  | op :: ops => ((c.step op).1).runOps ops

/-- The id of a transport `send` effect, if any. -/
def sentId : Effect → Option Int
  | .sent r => some r.id
  | _ => none

/-- The request ids handed to the transport along a run, in emission order. -/
def sentIds (c : CRConnection) : List Op → List Int
  | [] => []
  | op :: ops => ((c.step op).2.filterMap sentId) ++ sentIds (c.step op).1 ops

/-! ## Derived predicates -/

/-- All pending-call ids in a registry are at least 1. -/
def goodSessions (L : List (String × CRSession)) : Prop :=
  ∀ p ∈ L, ∀ q ∈ p.2.callbacks, (1 : Int) ≤ q.1

instance (L : List (String × CRSession)) : Decidable (goodSessions L) := by
  unfold goodSessions
  infer_instance

/-- Invariant tying the shared counter to the pending-call tables: the
counter is non-negative and every registered pending call is keyed by an id
of at least 1. -/
def goodState (c : CRConnection) : Prop :=
  0 ≤ c.lastId ∧ goodSessions c.sessions

instance (c : CRConnection) : Decidable (goodState c) := by
  unfold goodState
  infer_instance

/-- The root session (key `""`) is registered, and the registered session is
the one created by the constructor (its identity fields; its pending-call
table may have evolved). -/
def rootIntact (c : CRConnection) : Prop :=
  ∃ s, mapGet c.sessions "" = some s ∧ s.targetType = "browser" ∧
    s.sessionId = "" ∧ s.rootSessionId = "" ∧ s.connection = true

/-- The frame is not a target-lifecycle notification naming the root session
id `""` in its payload. -/
def sparesRoot (m : ProtocolResponse) : Prop :=
  ¬(m.method = some "Target.attachedToTarget" ∧ m.paramsSessionId = some "") ∧
  ¬(m.method = some "Target.detachedFromTarget" ∧ m.paramsSessionId = some "")

instance (m : ProtocolResponse) : Decidable (sparesRoot m) := by
  unfold sparesRoot
  infer_instance

/-! ## Concrete fixtures used by counterexamples and witnesses -/

def c3Callback : Callback :=
  { error := { message := "", stack := "callSite" }, method := "Foo.bar" }

def c3Session : CRSession :=
  { connection := true, callbacks := [(7, c3Callback)],
    targetType := "page", sessionId := "S", rootSessionId := "",
    crashed := false }

def c3Frame : ProtocolResponse :=
  { id := some 7, error := some { message := "boom", data := none } }

def c4Crashed : CRSession :=
  { connection := true, callbacks := [], targetType := "page",
    sessionId := "S", rootSessionId := "", crashed := true }

def c4Dead : CRSession :=
  { connection := false, callbacks := [], targetType := "page",
    sessionId := "S", rootSessionId := "", crashed := false }

def c4Conn : CRConnection :=
  { lastId := 5, sessions := [("S", c4Crashed)], closed := false }

def c5Session : CRSession := CRSession.mkNew "" "browser" ""

def c5Frame : ProtocolResponse :=
  { id := some 0, method := some "Foo.ev", params := some "x" }

def c5AssertFrame : ProtocolResponse := { id := some 5 }

def c6Callback : Callback :=
  { error := { message := "", stack := "cs3" }, method := "Bar.baz" }

def c6Session : CRSession :=
  { connection := true, callbacks := [(3, c6Callback)],
    targetType := "page", sessionId := "S", rootSessionId := "",
    crashed := false }

def c6Conn : CRConnection :=
  { lastId := 3,
    sessions := [("", CRSession.mkNew "" "browser" ""), ("S", c6Session)],
    closed := false }

def c6Frame : ProtocolResponse :=
  { method := some "Target.detachedFromTarget", paramsSessionId := some "S" }

def c7Frame : ProtocolResponse :=
  { id := some (-9999), method := some "Target.attachedToTarget",
    paramsSessionId := some "S", paramsTargetType := some "page" }

def c9Frame : ProtocolResponse :=
  { method := some "Target.detachedFromTarget", paramsSessionId := some "" }

def c9Frames : List ProtocolResponse :=
  [{ method := some "Target.attachedToTarget", paramsSessionId := some "S",
      paramsTargetType := some "page" },
   { method := some "Foo.ev", params := some "x" },
   { method := some "Target.detachedFromTarget", paramsSessionId := some "S" }]

def c10Ops : List Op :=
  [Op.send "" "Cmd.one" none "w1", Op.rawSend "S" "Cmd.two" none]

def c10Root : CRSession :=
  { connection := true, callbacks := [(1, pendingCallbackFor "w1" "Cmd.one")],
    targetType := "browser", sessionId := "", rootSessionId := "",
    crashed := false }

def c10Frame : ProtocolResponse :=
  { method := some "Foo.ev", params := some "x" }

/-! ## Association-list (JS `Map`) lemmas -/

theorem mapGet_eq_some_mem {α β : Type} [DecidableEq α] {l : List (α × β)} {k : α}
    {v : β} (h : mapGet l k = some v) : (k, v) ∈ l := by
  induction l with
  | nil => simp [mapGet] at h
  | cons p rest ih =>
    by_cases hk : p.1 = k
    · simp [mapGet, hk] at h
      subst hk
      simp [← h]
    · simp [mapGet, hk] at h
      exact List.mem_cons_of_mem _ (ih h)

theorem mem_mapSet {α β : Type} [DecidableEq α] {l : List (α × β)} {k : α} {v : β}
    {q : α × β} (h : q ∈ mapSet l k v) : q = (k, v) ∨ q ∈ l := by
  induction l with
  | nil => simpa [mapSet] using h
  | cons p rest ih =>
    by_cases hk : p.1 = k
    · simp [mapSet, hk] at h
      rcases h with h | h
      · exact Or.inl h
      · exact Or.inr (List.mem_cons_of_mem _ h)
    · simp [mapSet, hk] at h
      rcases h with h | h
      · exact Or.inr (by simp [h])
      · rcases ih h with h' | h'
        · exact Or.inl h'
        · exact Or.inr (List.mem_cons_of_mem _ h')

theorem mem_mapDelete {α β : Type} [DecidableEq α] {l : List (α × β)} {k : α}
    {q : α × β} (h : q ∈ mapDelete l k) : q ∈ l := by
  induction l with
  | nil => simp [mapDelete] at h
  | cons p rest ih =>
    by_cases hk : p.1 = k
    · simp [mapDelete, hk] at h
      exact List.mem_cons_of_mem _ h
    · simp [mapDelete, hk] at h
      rcases h with h | h
      · simp [h]
      · exact List.mem_cons_of_mem _ (ih h)

theorem mapGet_mapSet_self {α β : Type} [DecidableEq α] (l : List (α × β)) (k : α)
    (v : β) : mapGet (mapSet l k v) k = some v := by
  induction l with
  | nil => simp [mapSet, mapGet]
  | cons p rest ih =>
    by_cases hk : p.1 = k
    · simp [mapSet, hk, mapGet]
    · simp [mapSet, hk, mapGet, ih]

theorem mapGet_mapSet_ne {α β : Type} [DecidableEq α] (l : List (α × β)) {k k' : α}
    (v : β) (h : k' ≠ k) : mapGet (mapSet l k v) k' = mapGet l k' := by
  induction l with
  | nil => simp [mapSet, mapGet, Ne.symm h]
  | cons p rest ih =>
    by_cases hk : p.1 = k
    · simp [mapSet, mapGet, hk, Ne.symm h]
    · simp [mapSet, mapGet, hk, ih]

theorem mapGet_mapDelete_ne {α β : Type} [DecidableEq α] (l : List (α × β)) {k k' : α}
    (h : k' ≠ k) : mapGet (mapDelete l k) k' = mapGet l k' := by
  induction l with
  | nil => simp [mapDelete]
  | cons p rest ih =>
    by_cases hk : p.1 = k
    · simp [mapDelete, mapGet, hk, Ne.symm h]
    · simp [mapDelete, mapGet, hk, ih]

theorem mapGet_mapDelete_self {α β : Type} [DecidableEq α] {l : List (α × β)} {k : α}
    (h : (l.map Prod.fst).Nodup) : mapGet (mapDelete l k) k = none := by
  induction l with
  | nil => simp [mapDelete, mapGet]
  | cons p rest ih =>
    simp only [List.map_cons, List.nodup_cons] at h
    by_cases hk : p.1 = k
    · simp only [mapDelete, hk, if_pos rfl]
      subst hk
      cases hr : mapGet rest p.1 with
      | none => exact hr
      | some v =>
        exact absurd (List.mem_map_of_mem Prod.fst (mapGet_eq_some_mem hr)) h.1
    · simp [mapDelete, hk, mapGet, ih h.2]

/-! ## Session-level dispatch lemmas -/

theorem onMessage_preserves_identity (s : CRSession) (m : ProtocolResponse) :
    (s.onMessage m).1.connection = s.connection ∧
    (s.onMessage m).1.targetType = s.targetType ∧
    (s.onMessage m).1.sessionId = s.sessionId ∧
    (s.onMessage m).1.rootSessionId = s.rootSessionId ∧
    (s.onMessage m).1.crashed = s.crashed := by
  unfold CRSession.onMessage
  cases hid : m.id with
  | none => simp
  | some n =>
    by_cases hn : n = 0
    · simp [hn]
    · cases hg : mapGet s.callbacks n <;> simp [hn, hg]

theorem onMessage_callbacks_sub (s : CRSession) (m : ProtocolResponse) :
    ∀ q ∈ (s.onMessage m).1.callbacks, q ∈ s.callbacks := by
  unfold CRSession.onMessage
  cases hid : m.id with
  | none => simp
  | some n =>
    by_cases hn : n = 0
    · simp [hn]
    · cases hg : mapGet s.callbacks n with
      | none => simp [hn, hg]
      | some cb =>
        intro q hq
        simp [hn, hg] at hq
        exact mem_mapDelete hq

theorem onClosed_effects_sentId (s : CRSession) :
    ∀ e ∈ s.onClosed.2, sentId e = none := by
  intro e he
  simp only [CRSession.onClosed, List.mem_append, List.mem_map, List.mem_singleton] at he
  rcases he with ⟨p, _, rfl⟩ | rfl <;> rfl

theorem onMessageS_effects_sentId (s : CRSession) (m : ProtocolResponse) :
    ∀ e ∈ (s.onMessage m).2, sentId e = none := by
  unfold CRSession.onMessage
  cases hid : m.id with
  | none => simp [sentId]
  | some n =>
    by_cases hn : n = 0
    · simp [hn, sentId]
    · cases hg : mapGet s.callbacks n with
      | none => simp [hn, hg, sentId]
      | some cb =>
        intro e he
        cases herr : m.error <;> simp [hn, hg, herr] at he <;> simp [he, sentId]

/-! ## Connection-level dispatch lemmas -/

theorem handleLifecycle_state (c : CRConnection) (m : ProtocolResponse) :
    (c.handleLifecycle m).1.lastId = c.lastId ∧
    (c.handleLifecycle m).1.closed = c.closed := by
  unfold CRConnection.handleLifecycle
  split
  · cases hp : m.paramsSessionId <;> simp [hp]
  · split
    · cases hp : m.paramsSessionId with
      | none => simp [hp]
      | some sid => cases hg : mapGet c.sessions sid <;> simp [hp, hg]
    · simp

theorem handleLifecycle_good (c : CRConnection) (m : ProtocolResponse)
    (h : goodSessions c.sessions) : goodSessions (c.handleLifecycle m).1.sessions := by
  unfold CRConnection.handleLifecycle
  split
  · cases hp : m.paramsSessionId with
    | none => simpa using h
    | some sid =>
      simp only [hp]
      intro p hp' q hq
      rcases mem_mapSet hp' with rfl | hmem
      · simp [CRSession.mkNew] at hq
      · exact h p hmem q hq
  · split
    · cases hp : m.paramsSessionId with
      | none => simpa [hp] using h
      | some sid =>
        cases hg : mapGet c.sessions sid with
        | none => simpa [hp, hg] using h
        | some s =>
          simp only [hp, hg]
          intro p hp' q hq
          exact h p (mem_mapDelete hp') q hq
    · simpa using h

theorem handleLifecycle_effects_sentId (c : CRConnection) (m : ProtocolResponse) :
    ∀ e ∈ (c.handleLifecycle m).2, sentId e = none := by
  unfold CRConnection.handleLifecycle
  split
  · cases hp : m.paramsSessionId <;> simp [hp]
  · split
    · cases hp : m.paramsSessionId with
      | none => simp [hp]
      | some sid =>
        cases hg : mapGet c.sessions sid with
        | none => simp [hp, hg]
        | some s => simpa [hp, hg] using onClosed_effects_sentId s
    · simp

theorem onMessageC_state (c : CRConnection) (m : ProtocolResponse) :
    (c.onMessage m).1.lastId = c.lastId ∧ (c.onMessage m).1.closed = c.closed := by
  obtain ⟨h1, h2⟩ := handleLifecycle_state c m
  unfold CRConnection.onMessage
  split
  · simp
  · dsimp only
    split <;> simp [h1, h2]

theorem onMessageC_effects_sentId (c : CRConnection) (m : ProtocolResponse) :
    ∀ e ∈ (c.onMessage m).2, sentId e = none := by
  unfold CRConnection.onMessage
  split
  · simp
  · dsimp only
    split
    · intro e he
      rcases List.mem_append.mp he with h' | h'
      · exact handleLifecycle_effects_sentId c m e h'
      · exact onMessageS_effects_sentId _ m e h'
    · intro e he
      exact handleLifecycle_effects_sentId c m e he

theorem onMessageC_good (c : CRConnection) (m : ProtocolResponse)
    (h : goodSessions c.sessions) : goodSessions (c.onMessage m).1.sessions := by
  have hl := handleLifecycle_good c m h
  unfold CRConnection.onMessage
  split
  · simpa using h
  · dsimp only
    split
    next session heq =>
      intro p hp q hq
      rcases mem_mapSet hp with rfl | hmem
      · exact hl _ (mapGet_eq_some_mem heq) q (onMessage_callbacks_sub session m q hq)
      · exact hl p hmem q hq
    next heq => simpa using hl

theorem onClose_effects_sentId (c : CRConnection) :
    ∀ e ∈ c.onClose.2, sentId e = none := by
  intro e he
  simp only [CRConnection.onClose] at he
  rcases List.mem_cons.mp he with rfl | he
  · rfl
  · rcases List.mem_append.mp he with he | he
    · rw [List.mem_flatten] at he
      obtain ⟨l, hl, hel⟩ := he
      rw [List.mem_map] at hl
      obtain ⟨p, _, rfl⟩ := hl
      exact onClosed_effects_sentId p.2 e hel
    · rw [List.mem_singleton] at he
      subst he
      rfl

/-- Each step either performs no transport send and leaves the counter
alone, or sends exactly one request carrying id `lastId + 1` and advances
the counter to that id. -/
theorem step_sent_spec (c : CRConnection) (op : Op) :
    ((c.step op).2.filterMap sentId = [] ∧ (c.step op).1.lastId = c.lastId) ∨
    ((c.step op).2.filterMap sentId = [c.lastId + 1] ∧
      (c.step op).1.lastId = c.lastId + 1) := by
  cases op with
  | send sid method params stack =>
    unfold CRConnection.step
    cases hg : mapGet c.sessions sid with
    | none => left; simp [hg]
    | some s =>
      unfold CRSession.send
      cases hc : s.crashed with
      | true => left; simp [hg, hc, sentId]
      | false =>
        cases hconn : s.connection with
        | false => left; simp [hg, hc, hconn, sentId]
        | true => right; simp [hg, hc, hconn, CRConnection.rawSend, sentId]
  | rawSend sid method params =>
    right
    simp [CRConnection.step, CRConnection.rawSend, sentId]
  | recv m =>
    left
    exact ⟨List.filterMap_eq_nil_iff.mpr (onMessageC_effects_sentId c m),
      (onMessageC_state c m).1⟩
  | transportClosed =>
    left
    refine ⟨List.filterMap_eq_nil_iff.mpr (onClose_effects_sentId c), ?_⟩
    simp [CRConnection.step, CRConnection.onClose]
  | close =>
    left
    cases hc : c.closed <;>
      simp [CRConnection.step, CRConnection.close, hc, sentId]

theorem sentIds_gt (ops : List Op) : ∀ c : CRConnection, ∀ i ∈ sentIds c ops,
    c.lastId < i := by
  induction ops with
  | nil => intro c i hi; simp [sentIds] at hi
  | cons op ops ih =>
    intro c i hi
    rw [sentIds, List.mem_append] at hi
    rcases step_sent_spec c op with ⟨he, hl⟩ | ⟨he, hl⟩
    · rcases hi with hi | hi
      · rw [he] at hi
        simp at hi
      · exact hl ▸ ih (c.step op).1 i hi
    · rcases hi with hi | hi
      · rw [he] at hi
        simp at hi
        omega
      · have := ih (c.step op).1 i hi
        omega

theorem sentIds_pairwise (ops : List Op) : ∀ c : CRConnection,
    List.Pairwise (· < ·) (sentIds c ops) := by
  induction ops with
  | nil => intro c; simp [sentIds]
  | cons op ops ih =>
    intro c
    rw [sentIds]
    rcases step_sent_spec c op with ⟨he, _⟩ | ⟨he, hl⟩
    · rw [he]
      simpa using ih (c.step op).1
    · rw [he, List.pairwise_append]
      refine ⟨by simp, ih (c.step op).1, ?_⟩
      intro a ha b hb
      simp at ha
      subst ha
      have := sentIds_gt ops (c.step op).1 b hb
      omega

/-! ## Counter / pending-id invariant -/

theorem goodSessions_step (c : CRConnection) (op : Op) (h0 : 0 ≤ c.lastId)
    (hs : goodSessions c.sessions) : goodSessions (c.step op).1.sessions := by
  cases op with
  | send sid method params stack =>
    cases hg : mapGet c.sessions sid with
    | none => simpa [CRConnection.step, hg] using hs
    | some s =>
      cases hc : s.crashed with
      | true => simpa [CRConnection.step, CRSession.send, hg, hc] using hs
      | false =>
        cases hconn : s.connection with
        | false =>
          simpa [CRConnection.step, CRSession.send, hg, hc, hconn] using hs
        | true =>
          intro p hp q hq
          simp [CRConnection.step, CRSession.send, hg, hc, hconn,
            CRConnection.rawSend] at hp
          rcases mem_mapSet hp with rfl | hmem
          · rcases mem_mapSet hq with rfl | hq'
            · simp
              omega
            · exact hs (sid, s) (mapGet_eq_some_mem hg) q hq'
          · exact hs p hmem q hq
  | rawSend sid method params =>
    simpa [CRConnection.step, CRConnection.rawSend] using hs
  | recv m => exact onMessageC_good c m hs
  | transportClosed => simp [CRConnection.step, CRConnection.onClose, goodSessions]
  | close =>
    cases hcl : c.closed <;>
      simpa [CRConnection.step, CRConnection.close, hcl] using hs

theorem goodState_step (c : CRConnection) (op : Op) (h : goodState c) :
    goodState (c.step op).1 := by
  obtain ⟨h0, hs⟩ := h
  refine ⟨?_, goodSessions_step c op h0 hs⟩
  rcases step_sent_spec c op with ⟨_, hl⟩ | ⟨_, hl⟩ <;> omega

theorem goodState_runOps (ops : List Op) :
    ∀ c : CRConnection, goodState c → goodState (c.runOps ops) := by
  induction ops with
  | nil => intro c h; exact h
  | cons op ops ih =>
    intro c h
    exact ih (c.step op).1 (goodState_step c op h)

theorem goodState_mkNew : goodState CRConnection.mkNew := by decide

/-! ## Root-session persistence -/

theorem rootIntact_handleLifecycle (c : CRConnection) (m : ProtocolResponse)
    (hm : sparesRoot m) (h : rootIntact c) :
    rootIntact (c.handleLifecycle m).1 := by
  unfold CRConnection.handleLifecycle
  split
  next hatt =>
    cases hp : m.paramsSessionId with
    | none => simpa using h
    | some sid =>
      have hsid : sid ≠ "" := by
        rintro rfl
        exact hm.1 ⟨hatt, hp⟩
      simp only [hp]
      obtain ⟨s, hg, hrest⟩ := h
      exact ⟨s, by rw [mapGet_mapSet_ne _ _ (Ne.symm hsid)]; exact hg, hrest⟩
  next =>
    split
    next hdet =>
      cases hp : m.paramsSessionId with
      | none => simpa [hp] using h
      | some sid =>
        have hsid : sid ≠ "" := by
          rintro rfl
          exact hm.2 ⟨hdet, hp⟩
        cases hg2 : mapGet c.sessions sid with
        | none => simpa [hp, hg2] using h
        | some s2 =>
          simp only [hp, hg2]
          obtain ⟨s, hg, hrest⟩ := h
          exact ⟨s, by rw [mapGet_mapDelete_ne _ (Ne.symm hsid)]; exact hg, hrest⟩
    next => simpa using h

theorem rootIntact_onMessage (c : CRConnection) (m : ProtocolResponse)
    (hm : sparesRoot m) (h : rootIntact c) : rootIntact (c.onMessage m).1 := by
  have h1 := rootIntact_handleLifecycle c m hm h
  unfold CRConnection.onMessage
  split
  · exact h
  · dsimp only
    split
    next session heq =>
      by_cases hkey : m.sessionId.getD "" = ""
      · obtain ⟨s, hg, ht, hsid, hroot, hconn⟩ := h1
        rw [hkey] at heq
        rw [heq] at hg
        injection hg with hg
        subst hg
        obtain ⟨hc1, hc2, hc3, hc4, _⟩ := onMessage_preserves_identity session m
        refine ⟨(session.onMessage m).1, ?_, ?_, ?_, ?_, ?_⟩
        · rw [hkey]
          exact mapGet_mapSet_self _ _ _
        · rw [hc2]; exact ht
        · rw [hc3]; exact hsid
        · rw [hc4]; exact hroot
        · rw [hc1]; exact hconn
      · obtain ⟨s, hg, hrest⟩ := h1
        refine ⟨s, ?_, hrest⟩
        rw [mapGet_mapSet_ne _ _ (fun hh => hkey hh.symm)]
        exact hg
    next => exact h1

theorem rootIntact_runRecv (frames : List ProtocolResponse) :
    ∀ c : CRConnection, (∀ m ∈ frames, sparesRoot m) → rootIntact c →
      rootIntact (c.runOps (frames.map Op.recv)) := by
  induction frames with
  | nil => intro c _ h; exact h
  | cons m frames ih =>
    intro c hall h
    exact ih (c.onMessage m).1 (fun f hf => hall f (List.mem_cons_of_mem _ hf))
      (rootIntact_onMessage c m (hall m (List.mem_cons_self _ _)) h)

/-! ## Claims -/

/-- C1: for every Connection, the request ids handed to the transport by
successive `_rawSend` calls (whether issued directly or through any
session's `send`) are strictly increasing, hence never repeat, for the
lifetime of that Connection: every id is drawn from the single shared
counter owned by the Connection. -/
theorem c1_request_ids_strictly_increasing (c : CRConnection) (ops : List Op) :
    List.Pairwise (· < ·) (sentIds c ops) ∧
    List.Pairwise (· ≠ ·) (sentIds c ops) :=
  ⟨sentIds_pairwise ops c,
    (sentIds_pairwise ops c).imp (fun h => ne_of_lt h)⟩

/-- C2: any close — `CRSession._onClosed`, reached from a detach
notification or from the connection's transport-close handler
`CRConnection._onClose` — rejects each still-pending call of the affected
session(s) exactly once (one rejection per pending-table entry) with
`Protocol error (<method>): Target closed.`, preserving the call-site
diagnostic context (the stack), clears the pending-call table, and clears
the connection reference so that every subsequent `send` on that session
fails fast; the connection-level close does this to every registered
session and clears the registry. -/
theorem c2_close_settles_all_pending (s : CRSession) (c : CRConnection) :
    s.onClosed.1.callbacks = [] ∧
    s.onClosed.1.connection = false ∧
    s.onClosed.2 =
      (s.callbacks.map fun p =>
        Effect.rejectCall s.sessionId p.1
          { message := "Protocol error (" ++ p.2.method ++ "): Target closed.",
            stack := p.2.error.stack })
        ++ [Effect.emitSessionDisconnected s.sessionId] ∧
    (∀ (method : String) (params : Option JsonValue) (stack : String)
        (c' : CRConnection),
      ∃ e, s.onClosed.1.send c' method params stack = Except.error e) ∧
    c.onClose.1.sessions = [] ∧
    c.onClose.1.closed = true ∧
    c.onClose.2 =
      Effect.detachTransportHooks
        :: ((c.sessions.map fun p => p.2.onClosed.2).flatten
          ++ [Effect.emitDisconnected]) := by
  refine ⟨rfl, rfl, rfl, ?_, rfl, rfl, rfl⟩
  intro method params stack c'
  cases hc : s.crashed with
  | true =>
    exact ⟨{ message := "Target crashed", stack },
      by simp [CRSession.send, CRSession.onClosed, hc]⟩
  | false =>
    refine ⟨{ message := "Protocol error (" ++ method
        ++ "): Session closed. Most likely the " ++ s.targetType
        ++ " has been closed.", stack }, ?_⟩
    simp [CRSession.send, CRSession.onClosed, hc]

/-- C3: when an inbound envelope's id matches a tracked pending call, the
session removes that entry from the pending-call table and settles it:
with an `error` field it rejects with
`Protocol error (<method>): <peer message>` plus a space and the error's
`data` when that field is present, preserving the call-site stack;
without one it resolves with the envelope's `result` field. -/
theorem c3_reply_settlement (s : CRSession) (m : ProtocolResponse) (i : Int)
    (cb : Callback) (hi : m.id = some i) (hz : i ≠ 0)
    (hcb : mapGet s.callbacks i = some cb) :
    (s.onMessage m).1 = { s with callbacks := mapDelete s.callbacks i } ∧
    (s.onMessage m).2 =
      [match m.error with
       | some pe => Effect.rejectCall s.sessionId i
           (createProtocolError cb.error cb.method pe)
       | none => Effect.resolveCall s.sessionId i m.result] ∧
    ∀ pe : ErrorPayload,
      createProtocolError cb.error cb.method pe =
        match pe.data with
        | some d =>
          { message := "Protocol error (" ++ cb.method ++ "): " ++ pe.message
              ++ " " ++ d,
            stack := cb.error.stack }
        | none =>
          { message := "Protocol error (" ++ cb.method ++ "): " ++ pe.message,
            stack := cb.error.stack } := by
  refine ⟨?_, ?_, ?_⟩
  · simp [CRSession.onMessage, hi, hz, hcb]
  · simp [CRSession.onMessage, hi, hz, hcb]
  · intro pe
    cases hd : pe.data <;>
      simp [createProtocolError, rewriteErrorMessage, hd]

/-- C3 witness: the reply `{id:7, error:{message:"boom"}}` for a pending
call on method `"Foo.bar"` rejects it with message
`Protocol error (Foo.bar): boom` and removes the entry. -/
theorem c3_reply_settlement_witness :
    (c3Session.onMessage c3Frame).2 =
      [Effect.rejectCall "S" 7
        { message := "Protocol error (Foo.bar): boom", stack := "callSite" }] ∧
    (c3Session.onMessage c3Frame).1.callbacks = [] := by
  obtain ⟨h1, h2, _⟩ := c3_reply_settlement c3Session c3Frame 7 c3Callback
    rfl (by decide) (by decide)
  constructor
  · rw [h2]
    decide
  · rw [h1]
    decide

/-- C4: `CRSession.send` fails immediately — before any id allocation or
transport interaction — with `Target crashed` when the session is crashed,
and with a session-closed error naming the session's target type when the
connection reference is absent; otherwise it allocates the next id from the
Connection's shared counter, registers a pending call under that id, and
the request goes out with that id. At the system level a failing `send`
leaves the connection unchanged and sends nothing on the transport. -/
theorem c4_send_fail_fast (s : CRSession) (c : CRConnection) (method : String)
    (params : Option JsonValue) (stack : String) :
    (s.crashed = true →
      s.send c method params stack =
        Except.error { message := "Target crashed", stack }) ∧
    (s.crashed = false → s.connection = false →
      s.send c method params stack =
        Except.error
          { message := "Protocol error (" ++ method
              ++ "): Session closed. Most likely the " ++ s.targetType
              ++ " has been closed.",
            stack }) ∧
    (s.crashed = false → s.connection = true →
      s.send c method params stack =
        Except.ok
          ({ s with callbacks :=
              mapSet s.callbacks (c.lastId + 1) (pendingCallbackFor stack method) },
            { c with lastId := c.lastId + 1 },
            c.lastId + 1,
            { id := c.lastId + 1, method, params,
              sessionId :=
                if s.sessionId ≠ "" then some s.sessionId else none })) ∧
    (∀ (sid : String) (e : JsError), mapGet c.sessions sid = some s →
      s.send c method params stack = Except.error e →
      c.step (Op.send sid method params stack) =
        (c, [Effect.sendRejected sid e])) := by
  refine ⟨?_, ?_, ?_, ?_⟩
  · intro hc
    simp [CRSession.send, hc]
  · intro hc hcn
    simp [CRSession.send, hc, hcn]
  · intro hc hcn
    simp [CRSession.send, hc, hcn, CRConnection.rawSend]
  · intro sid e hg he
    simp [CRConnection.step, hg, he]

/-- C4 witness: a crashed session rejects with `Target crashed`; a session
with no connection reference rejects with the session-closed message naming
its target type (`page`); a live root session allocates id 1 and registers
the pending call; the system-level step for a failing send leaves the
connection untouched with no transport send. -/
theorem c4_send_fail_fast_witness :
    c4Crashed.send c4Conn "Foo.bar" none "cs" =
      Except.error { message := "Target crashed", stack := "cs" } ∧
    c4Dead.send c4Conn "Foo.bar" none "cs" =
      Except.error
        { message :=
            "Protocol error (Foo.bar): Session closed. Most likely the page has been closed.",
          stack := "cs" } ∧
    (CRSession.mkNew "" "browser" "").send CRConnection.mkNew "Foo.bar" none "cs" =
      Except.ok
        ({ CRSession.mkNew "" "browser" "" with
            callbacks := [(1, pendingCallbackFor "cs" "Foo.bar")] },
          { CRConnection.mkNew with lastId := 1 },
          1,
          { id := 1, method := "Foo.bar", params := none, sessionId := none }) ∧
    c4Conn.step (Op.send "S" "Foo.bar" none "cs") =
      (c4Conn, [Effect.sendRejected "S"
        { message := "Target crashed", stack := "cs" }]) :=
  ⟨(c4_send_fail_fast c4Crashed c4Conn "Foo.bar" none "cs").1 rfl,
   (c4_send_fail_fast c4Dead c4Conn "Foo.bar" none "cs").2.1 rfl rfl,
   (c4_send_fail_fast (CRSession.mkNew "" "browser" "") CRConnection.mkNew
     "Foo.bar" none "cs").2.2.1 rfl rfl,
   (c4_send_fail_fast c4Crashed c4Conn "Foo.bar" none "cs").2.2.2 "S"
     { message := "Target crashed", stack := "cs" } rfl rfl⟩

/-- C5 counterexample: an envelope that carries the id `0` — which matches
no still-pending call (the table is empty) — does NOT fail with an
assertion; because JavaScript id truthiness treats `0` like an absent id,
the event-emission branch is taken even though the envelope carries an id.
This refutes the claim that every id-carrying envelope with no matching
pending call asserts, and that the event branch is taken only for
envelopes carrying no id. -/
theorem c5_counterexample :
    c5Frame.id = some 0 ∧
    mapGet c5Session.callbacks 0 = none ∧
    c5Session.onMessage c5Frame =
      (c5Session, [Effect.emitEvent "" (some "Foo.ev") (some "x")]) :=
  ⟨rfl, rfl, rfl⟩

/-- C5 (amended): an inbound envelope carrying a truthy (nonzero) id that
matches no still-pending call of the addressed session fails loudly with an
assertion failure rather than being silently ignored; the event-emission
branch is taken exactly for envelopes whose id is absent or `0` (JavaScript
truthiness). -/
theorem c5_unmatched_id_asserts (s : CRSession) (m : ProtocolResponse) :
    (∀ i : Int, m.id = some i → i ≠ 0 → mapGet s.callbacks i = none →
      s.onMessage m = (s, [Effect.assertionFailed s.sessionId])) ∧
    ((m.id = none ∨ m.id = some 0) →
      s.onMessage m = (s, [Effect.emitEvent s.sessionId m.method m.params])) := by
  constructor
  · intro i hi hz hg
    simp [CRSession.onMessage, hi, hz, hg]
  · rintro (hi | hi) <;> simp [CRSession.onMessage, hi]

/-- C5 witness: a frame with id `5` and no matching pending call asserts;
the id-`0` frame takes the event branch. -/
theorem c5_unmatched_id_asserts_witness :
    c5Session.onMessage c5AssertFrame = (c5Session, [Effect.assertionFailed ""]) ∧
    c5Session.onMessage c5Frame =
      (c5Session, [Effect.emitEvent "" (some "Foo.ev") (some "x")]) :=
  ⟨(c5_unmatched_id_asserts c5Session c5AssertFrame).1 5 rfl (by decide)
      (by decide),
   (c5_unmatched_id_asserts c5Session c5Frame).2 (Or.inr rfl)⟩

/-- C6: processing one inbound detach notification has both effects in one
dispatch: the session registered under the notification's target session id
is closed (its pending calls rejected, via `_onClosed`) and removed from the
registry, and the same frame is then forwarded as an ordinary envelope to
the session owning the frame's outer `sessionId` (root when absent) — when
that session is (still) found in the registry after the removal. With
duplicate-free registry keys the detached id no longer resolves afterwards. -/
theorem c6_detach_dual_effect (c : CRConnection) (m : ProtocolResponse)
    (tid : String) (s : CRSession)
    (hm : m.method = some "Target.detachedFromTarget") (hid : m.id = none)
    (hp : m.paramsSessionId = some tid) (hs : mapGet c.sessions tid = some s) :
    (c.onMessage m =
      match mapGet (mapDelete c.sessions tid) (m.sessionId.getD "") with
      | some owner =>
        (c.withSessions
            (mapSet (mapDelete c.sessions tid) (m.sessionId.getD "")
              (owner.onMessage m).1),
          s.onClosed.2 ++ (owner.onMessage m).2)
      | none => (c.withSessions (mapDelete c.sessions tid), s.onClosed.2)) ∧
    ((c.sessions.map Prod.fst).Nodup →
      mapGet (c.onMessage m).1.sessions tid = none) := by
  have hne : ¬(some "Target.detachedFromTarget" = some "Target.attachedToTarget") := by
    decide
  have key : c.onMessage m =
      match mapGet (mapDelete c.sessions tid) (m.sessionId.getD "") with
      | some owner =>
        (c.withSessions
            (mapSet (mapDelete c.sessions tid) (m.sessionId.getD "")
              (owner.onMessage m).1),
          s.onClosed.2 ++ (owner.onMessage m).2)
      | none => (c.withSessions (mapDelete c.sessions tid), s.onClosed.2) := by
    cases ho : mapGet (mapDelete c.sessions tid) (m.sessionId.getD "") with
    | some owner =>
      simp [CRConnection.onMessage, CRConnection.handleLifecycle,
        CRConnection.withSessions, hid, hm, hne, hp, hs, ho]
    | none =>
      simp [CRConnection.onMessage, CRConnection.handleLifecycle,
        CRConnection.withSessions, hid, hm, hne, hp, hs, ho]
  refine ⟨key, ?_⟩
  intro hnodup
  have hdel := mapGet_mapDelete_self (l := c.sessions) (k := tid) hnodup
  rw [key]
  cases ho : mapGet (mapDelete c.sessions tid) (m.sessionId.getD "") with
  | none =>
    simp only [ho]
    simpa [CRConnection.withSessions] using hdel
  | some owner =>
    by_cases hkey : m.sessionId.getD "" = tid
    · rw [hkey] at ho
      rw [hdel] at ho
      cases ho
    · simp only [ho, CRConnection.withSessions]
      rw [mapGet_mapSet_ne _ _ (Ne.symm hkey)]
      exact hdel

/-- C6 witness: a detach notification for session `S` (outer sessionId
absent, so the root session owns the frame) closes `S`, rejecting its
pending call 3 and scheduling its Disconnected emit, removes it from the
registry, and forwards the same frame to the root session, which emits it
as an event. -/
theorem c6_detach_dual_effect_witness :
    c6Conn.onMessage c6Frame =
      ({ lastId := 3, sessions := [("", CRSession.mkNew "" "browser" "")],
          closed := false },
        [Effect.rejectCall "S" 3
          { message := "Protocol error (Bar.baz): Target closed.",
            stack := "cs3" },
         Effect.emitSessionDisconnected "S",
         Effect.emitEvent "" (some "Target.detachedFromTarget") none]) ∧
    mapGet (c6Conn.onMessage c6Frame).1.sessions "S" = none :=
  ⟨(c6_detach_dual_effect c6Conn c6Frame "S" c6Session rfl rfl rfl
      (by decide)).1,
   (c6_detach_dual_effect c6Conn c6Frame "S" c6Session rfl rfl rfl
      (by decide)).2 (by decide)⟩

/-- C7: every inbound frame whose id equals the reserved sentinel `-9999`
is discarded unprocessed, regardless of its other fields: the connection
state is unchanged and no effect (no session creation, closing, lookup
mutation or call settlement) is produced. -/
theorem c7_sentinel_discarded (c : CRConnection) (m : ProtocolResponse)
    (h : m.id = some kBrowserCloseMessageId) :
    c.onMessage m = (c, []) := by
  unfold CRConnection.onMessage
  simp [h]

/-- C7 witness: the sentinel id suppresses even a frame that otherwise
carries a complete attach notification. -/
theorem c7_sentinel_discarded_witness :
    CRConnection.mkNew.onMessage c7Frame = (CRConnection.mkNew, []) :=
  c7_sentinel_discarded CRConnection.mkNew c7Frame rfl

/-- C8 counterexample: `close()` checks the closed flag but never sets it
(only the transport-close callback `_onClose` does), so on a fresh
connection two consecutive `close()` calls request transport closure twice
— refuting the claim that repeated `close()` calls never request transport
closure more than once. -/
theorem c8_counterexample :
    CRConnection.mkNew.closed = false ∧
    CRConnection.mkNew.close = (CRConnection.mkNew, [Effect.transportClose]) ∧
    CRConnection.mkNew.close.2 ++ CRConnection.mkNew.close.1.close.2 =
      [Effect.transportClose, Effect.transportClose] :=
  ⟨rfl, rfl, rfl⟩

/-- C8 (amended): `close()` never mutates the connection state and requests
transport closure exactly when the closed flag is not yet set; once the
transport-close callback `_onClose` has run (setting the flag), any further
`close()` call has no effect. Idempotence therefore holds only after the
connection has observed closure; repeated `close()` calls before that each
request transport closure. -/
theorem c8_close_after_onclose_noop (c : CRConnection) :
    c.close = (c, if c.closed then [] else [Effect.transportClose]) ∧
    c.onClose.1.close = (c.onClose.1, []) := by
  constructor
  · cases hc : c.closed <;> simp [CRConnection.close, hc]
  · simp [CRConnection.close, CRConnection.onClose]

/-- C9 counterexample: an inbound detach notification whose payload names
the root session id `""` removes the root session from the registry while
the connection is still open — refuting the claim for arbitrary inbound
frame sequences. -/
theorem c9_counterexample :
    (CRConnection.mkNew.runOps [Op.recv c9Frame]).closed = false ∧
    mapGet (CRConnection.mkNew.runOps [Op.recv c9Frame]).sessions "" = none :=
  ⟨rfl, rfl⟩

/-- C9 (amended): the root session (session id `""`) is registered from
construction on, and stays registered (with its identity fields: target
type `browser`, session id `""`, root session id `""`, live connection
reference) under every sequence of inbound frames processed while the
connection is open, provided no frame is a target-lifecycle notification
whose payload names session id `""` (a detach notification naming `""`
deletes the root entry, an attach naming `""` overwrites it). -/
theorem c9_root_session_persists (frames : List ProtocolResponse)
    (h : ∀ m ∈ frames, sparesRoot m) :
    rootIntact (CRConnection.mkNew.runOps (frames.map Op.recv)) :=
  rootIntact_runRecv frames CRConnection.mkNew h
    ⟨CRSession.mkNew "" "browser" "", rfl, rfl, rfl, rfl, rfl⟩

/-- C9 witness: after an attach of `S`, an event frame and a detach of `S`,
the root session is still registered under `""`. -/
theorem c9_root_session_persists_witness :
    rootIntact (CRConnection.mkNew.runOps (c9Frames.map Op.recv)) :=
  c9_root_session_persists c9Frames (by decide)

/-- C10: every request id allocated by `_rawSend` along a run from a fresh
connection is at least 1 (the counter starts at 0 and is pre-incremented),
and no registered pending call is ever keyed by id 0; consequently
`CRSession._onMessage`, whose reply-vs-event decision tests the envelope id
for truthiness, treats an inbound frame bearing id 0 exactly like a frame
with no id: it is routed to the event branch and its no-id assertion
accepts it rather than failing loudly. -/
theorem c10_id_zero_like_no_id (ops : List Op) (s : CRSession)
    (m : ProtocolResponse) :
    (∀ i ∈ sentIds CRConnection.mkNew ops, 1 ≤ i) ∧
    goodState (CRConnection.mkNew.runOps ops) ∧
    (∀ p ∈ (CRConnection.mkNew.runOps ops).sessions,
      mapGet p.2.callbacks 0 = none) ∧
    s.onMessage { m with id := some 0 } = s.onMessage { m with id := none } ∧
    s.onMessage { m with id := some 0 } =
      (s, [Effect.emitEvent s.sessionId m.method m.params]) := by
  have hgs := goodState_runOps ops CRConnection.mkNew goodState_mkNew
  refine ⟨?_, hgs, ?_, ?_, ?_⟩
  · intro i hi
    have hgt := sentIds_gt ops CRConnection.mkNew i hi
    have h0 : CRConnection.mkNew.lastId = 0 := rfl
    omega
  · intro p hp
    cases hq : mapGet p.2.callbacks 0 with
    | none => rfl
    | some cb =>
      have hbad := hgs.2 p hp (0, cb) (mapGet_eq_some_mem hq)
      simp at hbad
  · simp [CRSession.onMessage]
  · simp [CRSession.onMessage]

/-- C10 witness: along a run with one session `send` and one raw send, the
ids are 1 and 2 (both at least 1), the resulting root session's table has
no entry keyed 0, and an id-0 event frame is emitted as an event. -/
theorem c10_id_zero_like_no_id_witness :
    (1 : Int) ≤ 1 ∧
    goodState (CRConnection.mkNew.runOps c10Ops) ∧
    mapGet c10Root.callbacks 0 = none ∧
    (CRSession.mkNew "" "browser" "").onMessage { c10Frame with id := some 0 } =
      (CRSession.mkNew "" "browser" "",
        [Effect.emitEvent "" (some "Foo.ev") (some "x")]) := by
  have h := c10_id_zero_like_no_id c10Ops (CRSession.mkNew "" "browser" "")
    c10Frame
  exact ⟨h.1 1 (by decide), h.2.1, h.2.2.1 ("", c10Root) (by decide),
    h.2.2.2.2⟩
